import Mathlib

/-!
A shallow embedding of the hook core of peon.py (event routing, session
state, sound selection) together with a model of the pack-switch CLI
command, and proofs about them.

Modelling conventions:
* Python dictionaries that persist in the state document become
  association lists over `String` keys; `dget` is dictionary lookup and
  `dset` is dictionary assignment (replace the first binding in place,
  append a fresh key at the end, as CPython insertion order does).
* Epoch timestamps (floats in the source) are modelled as integers; only
  their ordered-field comparisons are used by the code.
* The two calls to random.choice are modelled by explicit index
  arguments (`rngPack`, `rngSound`) reduced modulo the candidate-list
  length, so every possible draw is a possible argument.
* `sys.exit(0)` paths become a `HookResult` built by `silentExit`, which
  records that nothing was printed, played or notified; the `persisted`
  field of a `HookResult` is the state document on disk after the
  invocation (the original one when no write happened).
* External effects (audio player, popup, focus check, platform) appear
  as booleans or are reported as result fields.
-/

namespace PeonPing

/-- Dictionary lookup on an association list (Python `d.get(k)`). -/
def dget {α : Type} : List (String × α) → String → Option α
  | [], _ => none
  | (a, b) :: rest, k => if k = a then some b else dget rest k

/-- Dictionary assignment (Python `d[k] = v`): replace the first binding
in place, or append the new key at the end. -/
def dset {α : Type} : List (String × α) → String → α → List (String × α)
  | [], k, v => [(k, v)]
  | (a, b) :: rest, k, v => if a = k then (k, v) :: rest else (a, b) :: dset rest k v

/-- One entry of a pack manifest sound list (`{file, line}`). -/
structure Sound where
  file : String
  line : String := ""
deriving DecidableEq

/-- A pack manifest, reduced to what the selector reads:
`manifest.get("categories", {}).get(category, {}).get("sounds", [])`. -/
abbrev Manifest := String → List Sound

/-- The configuration fields the hook core reads (with source defaults).
`enabledStr` is the result of Python `str(cfg.get("enabled", True))`. -/
structure Config where
  enabledStr : String := "True"
  volume : Rat := 1 / 2
  active_pack : String := "peon"
  pack_rotation : List String := []
  annoyed_threshold : Nat := 3
  annoyed_window : Int := 10
  catEnabled : String → Bool := fun _ => true

/-- The event descriptor read from stdin; missing fields default to
the empty string, as with `event_data.get(key, "")`. -/
structure Event where
  hook_event_name : String := ""
  notification_type : String := ""
  cwd : String := ""
  session_id : String := ""
  permission_mode : String := ""
deriving DecidableEq

/-- The persistent state document `.state.json`. -/
structure PeonState where
  agent_sessions : List String := []
  session_packs : List (String × String) := []
  prompt_timestamps : List (String × List Int) := []
  last_played : List (String × String) := []
deriving DecidableEq

/-- `agent_modes = {"delegate"}` from the source. -/
def agentModes : List String := ["delegate"]

/-- Helper for `os.path.basename` on POSIX paths: the suffix after the
last slash. -/
def basenameAux : List Char → List Char → List Char
  | [], acc => acc
  | c :: rest, acc => if c = '/' then basenameAux rest [] else basenameAux rest (acc ++ [c])

/-- `os.path.basename`: the last path segment (empty for a trailing slash). -/
def basename (p : String) : String := String.mk (basenameAux p.data [])

/-- Characters kept by `re.sub(r"[^a-zA-Z0-9 ._-]", "", name)`. -/
def allowedChar (c : Char) : Bool :=
  c.isAlphanum || c == ' ' || c == '.' || c == '_' || c == '-'

/-- The stripping step of project-name extraction. -/
def stripName (s : String) : String := String.mk (s.data.filter allowedChar)

/-- `extract_project_name` from the source. -/
def extract_project_name (cwd : String) : String :=
  if cwd = "" then "claude"
  else
    let name := basename cwd
    if name = "" then "claude"
    else if stripName name = "" then "claude"
    else stripName name

/-- ASCII lowering, modelling Python `str.lower()` on the values the
enabled flag can stringify to. -/
def strLower (s : String) : String := String.mk (s.data.map Char.toLower)

/-- Truthiness of `s.strip()`: does the string contain a character that
is not whitespace. -/
def strTruthyStripped (s : String) : Bool := s.data.any (fun c => !c.isWhitespace)

/-- The sound pick of lines 530-539 of peon.py: candidates are the full
list when it has at most one entry, otherwise the entries whose file
differs from the last played one; an empty candidate pool raises
IndexError in the source, which the surrounding try swallows (`none`). -/
def pickSound (sounds : List Sound) (lastFile : String) (rng : Nat) : Option Sound :=
  if sounds.isEmpty then none
  else
    let candidates :=
      if sounds.length ≤ 1 then sounds
      else sounds.filter (fun s => s.file != lastFile)
    if candidates.isEmpty then none
    else some (candidates.getD (rng % candidates.length) ⟨"", ""⟩)

/-- Iterated sound selection for one category: after each successful
pick the picked file becomes the remembered last-played file, exactly as
`last_played[category]` is rewritten in the source. Returns the list of
files returned by the selector. -/
def selectorTrace (sounds : List Sound) : String → List Nat → List String
  | _, [] => []
  | lastFile, r :: rs =>
    match pickSound sounds lastFile r with
    | none => selectorTrace sounds lastFile rs
    | some p => p.file :: selectorTrace sounds p.file rs

/-- The outcome of the event-routing block (lines 469-518): category,
status text, title marker, notification request, and the rewritten
prompt-timestamp table when UserPromptSubmit recorded one. -/
structure RouteOut where
  category : String := ""
  status : String := ""
  marker : String := ""
  notify : Bool := false
  notifyColor : String := ""
  msg : String := ""
  newPromptTs : Option (List (String × List Int)) := none
deriving DecidableEq

/-- The event-routing block. `none` models the `sys.exit(0)` branches
for an unknown event name or unknown notification subtype. -/
def route (cfg : Config) (st : PeonState) (ev : Event) (now : Int) (project : String) :
    Option RouteOut :=
  if ev.hook_event_name = "SessionStart" then
    some { category := "greeting", status := "ready" }
  else if ev.hook_event_name = "UserPromptSubmit" then
    if cfg.catEnabled "annoyed" then
      let ts := ((dget st.prompt_timestamps ev.session_id).getD []).filter
        (fun t => now - t < cfg.annoyed_window)
      let ts' := ts ++ [now]
      some { category := if cfg.annoyed_threshold ≤ ts'.length then "annoyed" else "",
             status := "working",
             newPromptTs := some (dset st.prompt_timestamps ev.session_id ts') }
    else
      some { status := "working" }
  else if ev.hook_event_name = "Stop" then
    some { category := "complete", status := "done", marker := "● ", notify := true,
           notifyColor := "blue", msg := project ++ "  —  Task complete" }
  else if ev.hook_event_name = "Notification" then
    if ev.notification_type = "permission_prompt" then
      some { category := "permission", status := "needs approval", marker := "● ",
             notify := true, notifyColor := "red", msg := project ++ "  —  Permission needed" }
    else if ev.notification_type = "idle_prompt" then
      some { status := "done", marker := "● ", notify := true,
             notifyColor := "yellow", msg := project ++ "  —  Waiting for input" }
    else none
  else if ev.hook_event_name = "PermissionRequest" then
    some { category := "permission", status := "needs approval", marker := "● ",
           notify := true, notifyColor := "red", msg := project ++ "  —  Permission needed" }
  else none

/-- Pack-rotation pinning (lines 448-456): returns the pack used for
this invocation, the state after a possible fresh draw, and whether the
state became dirty. -/
def packSelect (cfg : Config) (st : PeonState) (sid : String) (rngPack : Nat) :
    String × PeonState × Bool :=
  if cfg.pack_rotation.isEmpty then (cfg.active_pack, st, false)
  else
    match dget st.session_packs sid with
    | some p =>
      if p ∈ cfg.pack_rotation then (p, st, false)
      else
        let q := cfg.pack_rotation.getD (rngPack % cfg.pack_rotation.length) ""
        (q, { st with session_packs := dset st.session_packs sid q }, true)
    | none =>
      let q := cfg.pack_rotation.getD (rngPack % cfg.pack_rotation.length) ""
      (q, { st with session_packs := dset st.session_packs sid q }, true)

/-- The sound-selection block (lines 525-541): returns the picked file
(empty for no sound), the state after a possible last-played update, and
whether it dirtied the state. -/
def soundSelect (category : String) (paused : Bool) (packs : String → Option Manifest)
    (activePack : String) (st : PeonState) (rngSound : Nat) : String × PeonState × Bool :=
  if category ≠ "" ∧ paused = false then
    match packs activePack with
    | none => ("", st, false)
    | some man =>
      match pickSound (man category) ((dget st.last_played category).getD "") rngSound with
      | none => ("", st, false)
      | some p => (p.file, { st with last_played := dset st.last_played category p.file }, true)
  else ("", st, false)

/-- Everything one hook invocation does that the outside can observe. -/
structure HookResult where
  exitCode : Nat := 0
  persisted : PeonState := {}
  usedPack : String := ""
  category : String := ""
  status : String := ""
  marker : String := ""
  notify : Bool := false
  notifyColor : String := ""
  msg : String := ""
  soundFile : String := ""
  title : String := ""
  titleWritten : Bool := false
  notificationSent : Bool := false
deriving DecidableEq

/-- A `sys.exit(0)` with no output and the given on-disk state. -/
def silentExit (st : PeonState) : HookResult := { persisted := st }

/-- One hook invocation of `main` on a parsed event (lines 394-585 of
peon.py), with the pause flag, the focus-check result, the platform
test of the notification guard, and the available pack manifests as
explicit inputs. -/
def runHook (cfg : Config) (paused focused platformWindows : Bool)
    (packs : String → Option Manifest) (st : PeonState) (ev : Event)
    (now : Int) (rngPack rngSound : Nat) : HookResult :=
  if strLower cfg.enabledStr = "false" then silentExit st
  else if ev.permission_mode ≠ "" ∧ ev.permission_mode ∈ agentModes then
    silentExit { st with agent_sessions := st.agent_sessions.insert ev.session_id }
  else if ev.session_id ∈ st.agent_sessions then silentExit st
  else
    let ps := packSelect cfg st ev.session_id rngPack
    let project := extract_project_name ev.cwd
    match route cfg ps.2.1 ev now project with
    | none => { silentExit st with usedPack := ps.1 }
    | some r =>
      let st2 :=
        match r.newPromptTs with
        | some allTs => { ps.2.1 with prompt_timestamps := allTs }
        | none => ps.2.1
      let category := if r.category ≠ "" ∧ cfg.catEnabled r.category = false then "" else r.category
      let ss := soundSelect category paused packs ps.1 st2 rngSound
      let dirty := ps.2.2 || r.newPromptTs.isSome || ss.2.2
      let title := r.marker ++ project ++ ": " ++ r.status
      { exitCode := 0,
        persisted := if dirty then ss.2.1 else st,
        usedPack := ps.1,
        category := category,
        status := r.status,
        marker := r.marker,
        notify := r.notify,
        notifyColor := r.notifyColor,
        msg := r.msg,
        soundFile := ss.1,
        title := title,
        titleWritten := strTruthyStripped title,
        notificationSent := r.notify && !paused && !platformWindows && !focused }

/-- Raw stdin contents for one invocation: blank input, input that is
not valid JSON, or a parsed event. -/
inductive HookInput where
  | empty : HookInput
  | malformed : HookInput
  | event : Event → HookInput

/-- One hook invocation including the stdin checks of lines 385-419:
blank stdin and JSON decode errors both exit 0 before anything else. -/
def runHookRaw (cfg : Config) (paused focused platformWindows : Bool)
    (packs : String → Option Manifest) (st : PeonState) (inp : HookInput)
    (now : Int) (rngPack rngSound : Nat) : HookResult :=
  match inp with
  | .empty => silentExit st
  | .malformed => silentExit st
  | .event ev => runHook cfg paused focused platformWindows packs st ev now rngPack rngSound

/-- Comma-join of the installed pack names, as in the error message of
`cmd_pack`. -/
def joinComma : List String → String
  | [] => ""
  | [x] => x
  | x :: y :: rest => x ++ ", " ++ joinComma (y :: rest)

/-- The `--pack` subcommand (lines 244-277): `names` is the sorted list
of installed pack directories holding a manifest. `Except.error` models
the message printed to stderr before `sys.exit(1)` (the configuration
file is not rewritten on that path); `Except.ok` carries the rewritten
configuration and the pack switched to. -/
def cmd_pack (cfg : List (String × String)) (names : List String) (packArg : Option String) :
    Except String (List (String × String) × String) :=
  if names.isEmpty then Except.error "Error: no packs found"
  else
    match packArg with
    | none =>
      let active := (dget cfg "active_pack").getD "peon"
      let next :=
        match names.indexOf? active with
        | some i => names.getD ((i + 1) % names.length) ""
        | none => names.getD 0 ""
      Except.ok (dset cfg "active_pack" next, next)
    | some p =>
      if p ∈ names then Except.ok (dset cfg "active_pack" p, p)
      else Except.error ("Error: pack \"" ++ p ++ "\" not found. Available packs: " ++ joinComma names)

/-! ### Dictionary lemmas -/

theorem dget_dset_self {α : Type} (m : List (String × α)) (k : String) (v : α) :
    dget (dset m k v) k = some v := by
  induction m with
  | nil => simp [dset, dget]
  | cons p rest ih =>
    obtain ⟨a, b⟩ := p
    by_cases h : a = k
    · simp [dset, dget, h]
    · simp [dset, dget, h, Ne.symm h, ih]

theorem dget_dset_ne {α : Type} (m : List (String × α)) (k k' : String) (v : α)
    (h : k' ≠ k) : dget (dset m k v) k' = dget m k' := by
  induction m with
  | nil => simp [dset, dget, h]
  | cons p rest ih =>
    obtain ⟨a, b⟩ := p
    by_cases ha : a = k
    · subst ha
      simp [dset, dget, h]
    · by_cases hk' : k' = a <;> simp [dset, dget, ha, hk', ih]

theorem getD_mem {α : Type} (l : List α) (n : Nat) (d : α) (h : n < l.length) :
    l.getD n d ∈ l := by
  rw [List.getD_eq_getElem l d h]
  exact List.getElem_mem h

/-! ### Sound-selector lemmas -/

theorem pickSound_ne_last (sounds : List Sound) (lastFile : String) (rng : Nat)
    (h2 : 2 ≤ sounds.length) {p : Sound}
    (hp : pickSound sounds lastFile rng = some p) : p.file ≠ lastFile := by
  unfold pickSound at hp
  have hne : sounds.isEmpty = false := by
    cases sounds with
    | nil => simp at h2
    | cons a l => simp [List.isEmpty]
  rw [hne] at hp
  simp only [Bool.false_eq_true, if_false] at hp
  have hlen : ¬ sounds.length ≤ 1 := by omega
  rw [if_neg hlen] at hp
  set candidates := sounds.filter (fun s => s.file != lastFile) with hcand
  by_cases hce : candidates.isEmpty
  · simp [hce] at hp
  · rw [Bool.not_eq_true] at hce
    rw [hce] at hp
    simp only [Bool.false_eq_true, if_false, Option.some.injEq] at hp
    have hpos : 0 < candidates.length := by
      cases hl : candidates with
      | nil => rw [hl] at hce; simp [List.isEmpty] at hce
      | cons a l => simp [hl]
    have hmem : p ∈ candidates := by
      rw [← hp]
      exact getD_mem candidates (rng % candidates.length) ⟨"", ""⟩
        (Nat.mod_lt _ hpos)
    rw [hcand, List.mem_filter] at hmem
    have := hmem.2
    simpa using this

theorem pickSound_singleton (s : Sound) (lastFile : String) (rng : Nat) :
    pickSound [s] lastFile rng = some s := by
  simp [pickSound, List.isEmpty, Nat.mod_one, List.getD]

theorem selectorTrace_chain (sounds : List Sound) (h2 : 2 ≤ sounds.length)
    (lastFile : String) (rngs : List Nat) :
    List.Chain' (· ≠ ·) (lastFile :: selectorTrace sounds lastFile rngs) := by
  induction rngs generalizing lastFile with
  | nil => simp [selectorTrace]
  | cons r rs ih =>
    cases hp : pickSound sounds lastFile r with
    | none => simpa [selectorTrace, hp] using ih lastFile
    | some p =>
      have hne := pickSound_ne_last sounds lastFile r h2 hp
      rw [selectorTrace, hp]
      rw [List.chain'_cons]
      exact ⟨Ne.symm hne, ih p.file⟩

theorem selectorTrace_singleton (s : Sound) (lastFile : String) (rngs : List Nat) :
    selectorTrace [s] lastFile rngs = rngs.map fun _ => s.file := by
  induction rngs generalizing lastFile with
  | nil => simp [selectorTrace]
  | cons r rs ih =>
    rw [selectorTrace]
    simp [pickSound_singleton, ih]

/-! ### Frame lemmas for the state-threading blocks -/

theorem packSelect_agent_sessions (cfg : Config) (st : PeonState) (sid : String)
    (rngPack : Nat) :
    (packSelect cfg st sid rngPack).2.1.agent_sessions = st.agent_sessions := by
  unfold packSelect
  split
  · rfl
  · split
    · split
      · rfl
      · rfl
    · rfl

theorem packSelect_prompt_timestamps (cfg : Config) (st : PeonState) (sid : String)
    (rngPack : Nat) :
    (packSelect cfg st sid rngPack).2.1.prompt_timestamps = st.prompt_timestamps := by
  unfold packSelect
  split
  · rfl
  · split
    · split
      · rfl
      · rfl
    · rfl

theorem packSelect_last_played (cfg : Config) (st : PeonState) (sid : String)
    (rngPack : Nat) :
    (packSelect cfg st sid rngPack).2.1.last_played = st.last_played := by
  unfold packSelect
  split
  · rfl
  · split
    · split
      · rfl
      · rfl
    · rfl

theorem soundSelect_agent_sessions (category : String) (paused : Bool)
    (packs : String → Option Manifest) (activePack : String) (st : PeonState)
    (rngSound : Nat) :
    (soundSelect category paused packs activePack st rngSound).2.1.agent_sessions
      = st.agent_sessions := by
  unfold soundSelect
  split
  · split
    · rfl
    · split
      · rfl
      · rfl
  · rfl

theorem soundSelect_session_packs (category : String) (paused : Bool)
    (packs : String → Option Manifest) (activePack : String) (st : PeonState)
    (rngSound : Nat) :
    (soundSelect category paused packs activePack st rngSound).2.1.session_packs
      = st.session_packs := by
  unfold soundSelect
  split
  · split
    · rfl
    · split
      · rfl
      · rfl
  · rfl

theorem soundSelect_prompt_timestamps (category : String) (paused : Bool)
    (packs : String → Option Manifest) (activePack : String) (st : PeonState)
    (rngSound : Nat) :
    (soundSelect category paused packs activePack st rngSound).2.1.prompt_timestamps
      = st.prompt_timestamps := by
  unfold soundSelect
  split
  · split
    · rfl
    · split
      · rfl
      · rfl
  · rfl

theorem soundSelect_paused (category : String) (packs : String → Option Manifest)
    (activePack : String) (st : PeonState) (rngSound : Nat) :
    soundSelect category true packs activePack st rngSound = ("", st, false) := by
  simp [soundSelect]

theorem soundSelect_empty_cat (paused : Bool) (packs : String → Option Manifest)
    (activePack : String) (st : PeonState) (rngSound : Nat) :
    soundSelect "" paused packs activePack st rngSound = ("", st, false) := by
  simp [soundSelect]

theorem strTruthyStripped_bullet (s : String) : strTruthyStripped ("● " ++ s) = true := by
  have h : ("● " ++ s).data = '●' :: ' ' :: s.data := by simp
  have hw : ('●').isWhitespace = false := by decide
  simp [strTruthyStripped, h, hw]

/-! ### Claim theorems -/

/-- C10: when the configuration enabled field stringifies case-insensitively
to "false", the hook invocation exits 0 before the event is inspected, with
no output and no state mutation at all; in particular a delegated event is
not recorded in agent_sessions, so the kill-switch takes priority over
delegate detection. -/
theorem c10_kill_switch (cfg : Config) (paused focused pw : Bool)
    (packs : String → Option Manifest) (st : PeonState) (ev : Event)
    (now : Int) (rngPack rngSound : Nat)
    (h : strLower cfg.enabledStr = "false") :
    runHook cfg paused focused pw packs st ev now rngPack rngSound = silentExit st ∧
    (runHook cfg paused focused pw packs st ev now rngPack rngSound).persisted = st ∧
    (runHook cfg paused focused pw packs st ev now rngPack
        rngSound).persisted.agent_sessions = st.agent_sessions := by
  refine ⟨by simp [runHook, h], ?_, ?_⟩ <;> simp [runHook, h, silentExit]

/-- Closed instance of the kill-switch theorem: a delegated event under
enabled = "False" leaves the state document untouched. -/
theorem c10_witness :
    strLower ("False" : String) = "false" ∧
    (runHook { enabledStr := "False" } false false false (fun _ => none) {}
        { hook_event_name := "SessionStart", session_id := "s1",
          permission_mode := "delegate" } 0 0 0 = silentExit {} ∧
      (runHook { enabledStr := "False" } false false false (fun _ => none) {}
          { hook_event_name := "SessionStart", session_id := "s1",
            permission_mode := "delegate" } 0 0 0).persisted = {} ∧
      (runHook { enabledStr := "False" } false false false (fun _ => none) {}
          { hook_event_name := "SessionStart", session_id := "s1",
            permission_mode := "delegate" } 0 0 0).persisted.agent_sessions
        = ({} : PeonState).agent_sessions) :=
  ⟨by decide,
   c10_kill_switch { enabledStr := "False" } false false false (fun _ => none) {}
     { hook_event_name := "SessionStart", session_id := "s1",
       permission_mode := "delegate" } 0 0 0 (by decide)⟩

/-- C8: a pack switch naming an unknown pack reports an error carrying the
list of valid packs and exits non-zero (the `Except.error` path never
rewrites the configuration); naming an installed pack rewrites active_pack
to it and preserves every other configuration key. -/
theorem c8_pack_switch (cfg : List (String × String)) (names : List String)
    (p : String) (hne : names ≠ []) :
    (p ∉ names →
      cmd_pack cfg names (some p) =
        Except.error ("Error: pack \"" ++ p ++ "\" not found. Available packs: "
          ++ joinComma names)) ∧
    (p ∈ names →
      cmd_pack cfg names (some p) = Except.ok (dset cfg "active_pack" p, p) ∧
      dget (dset cfg "active_pack" p) "active_pack" = some p ∧
      ∀ k, k ≠ "active_pack" → dget (dset cfg "active_pack" p) k = dget cfg k) := by
  have hie : names.isEmpty = false := by simp [List.isEmpty_iff, hne]
  constructor
  · intro hnm
    simp [cmd_pack, hie, hnm]
  · intro hm
    refine ⟨by simp [cmd_pack, hie, hm], dget_dset_self cfg "active_pack" p, ?_⟩
    intro k hk
    exact dget_dset_ne cfg "active_pack" k p hk

/-- Closed instance of the pack-switch theorem on a two-pack install. -/
theorem c8_witness :
    (["alpha", "peon"] : List String) ≠ [] ∧
    ("alpha" ∈ (["alpha", "peon"] : List String) →
      cmd_pack [("volume", "0.5"), ("active_pack", "peon")] ["alpha", "peon"]
          (some "alpha")
        = Except.ok (dset [("volume", "0.5"), ("active_pack", "peon")]
            "active_pack" "alpha", "alpha") ∧
      dget (dset [("volume", "0.5"), ("active_pack", "peon")] "active_pack" "alpha")
          "active_pack" = some "alpha" ∧
      ∀ k, k ≠ "active_pack" →
        dget (dset [("volume", "0.5"), ("active_pack", "peon")] "active_pack" "alpha") k
          = dget [("volume", "0.5"), ("active_pack", "peon")] k) :=
  ⟨by decide,
   (c8_pack_switch [("volume", "0.5"), ("active_pack", "peon")] ["alpha", "peon"]
     "alpha" (by decide)).2⟩

/-- C4: over any sequence of selections for one category, the selector never
returns the file it returned immediately before (the remembered last-played
file) when the manifest list has at least two entries; with exactly one
entry it always returns that single file. -/
theorem c4_no_immediate_repeat (sounds : List Sound) (lastFile : String)
    (rngs : List Nat) :
    (2 ≤ sounds.length →
      List.Chain' (· ≠ ·) (lastFile :: selectorTrace sounds lastFile rngs)) ∧
    (∀ s, sounds = [s] → selectorTrace sounds lastFile rngs = rngs.map fun _ => s.file) := by
  constructor
  · intro h2
    exact selectorTrace_chain sounds h2 lastFile rngs
  · intro s hs
    rw [hs]
    exact selectorTrace_singleton s lastFile rngs

/-- Closed instance of the no-immediate-repeat theorem: a two-sound category
never repeats consecutively, for an explicit draw sequence. -/
theorem c4_witness :
    2 ≤ ([⟨"a.wav", "1"⟩, ⟨"b.wav", "2"⟩] : List Sound).length ∧
    List.Chain' (· ≠ ·)
      ("" :: selectorTrace [⟨"a.wav", "1"⟩, ⟨"b.wav", "2"⟩] "" [0, 0, 1, 5]) :=
  ⟨by decide,
   (c4_no_immediate_repeat [⟨"a.wav", "1"⟩, ⟨"b.wav", "2"⟩] "" [0, 0, 1, 5]).1
     (by decide)⟩

/-- C3: an event whose permission_mode is the delegated marker records the
session id in agent_sessions and exits immediately: the other three state
tables are untouched and no category, sound, title or notification results;
any event for a session already in agent_sessions exits identically with no
state change at all. -/
theorem c3_delegated_frame (cfg : Config) (paused focused pw : Bool)
    (packs : String → Option Manifest) (st : PeonState) (ev : Event)
    (now : Int) (rngPack rngSound : Nat)
    (hEn : strLower cfg.enabledStr ≠ "false") :
    ((ev.permission_mode ≠ "" ∧ ev.permission_mode ∈ agentModes) →
      runHook cfg paused focused pw packs st ev now rngPack rngSound =
        silentExit { st with agent_sessions := st.agent_sessions.insert ev.session_id } ∧
      (runHook cfg paused focused pw packs st ev now rngPack
          rngSound).persisted.session_packs = st.session_packs ∧
      (runHook cfg paused focused pw packs st ev now rngPack
          rngSound).persisted.prompt_timestamps = st.prompt_timestamps ∧
      (runHook cfg paused focused pw packs st ev now rngPack
          rngSound).persisted.last_played = st.last_played ∧
      (runHook cfg paused focused pw packs st ev now rngPack rngSound).category = "" ∧
      (runHook cfg paused focused pw packs st ev now rngPack rngSound).soundFile = "" ∧
      (runHook cfg paused focused pw packs st ev now rngPack
          rngSound).titleWritten = false ∧
      (runHook cfg paused focused pw packs st ev now rngPack
          rngSound).notificationSent = false) ∧
    (ev.session_id ∈ st.agent_sessions →
      runHook cfg paused focused pw packs st ev now rngPack rngSound = silentExit st) := by
  constructor
  · intro hd
    have hrw : runHook cfg paused focused pw packs st ev now rngPack rngSound =
        silentExit { st with agent_sessions := st.agent_sessions.insert ev.session_id } := by
      simp [runHook, hEn, hd]
    rw [hrw]
    exact ⟨rfl, rfl, rfl, rfl, rfl, rfl, rfl, rfl⟩
  · intro hm
    by_cases hd : ev.permission_mode ≠ "" ∧ ev.permission_mode ∈ agentModes
    · have hins : st.agent_sessions.insert ev.session_id = st.agent_sessions :=
        List.insert_of_mem hm
      simp [runHook, hEn, hd, hins]
    · simp [runHook, hEn, hd, hm]

/-- Test fixture: a Stop event arriving with the delegated marker. -/
def evStopDelegate : Event :=
  { hook_event_name := "Stop", session_id := "s1", permission_mode := "delegate" }

/-- Test fixture: a plain Stop event for session s1. -/
def evStopNormal : Event :=
  { hook_event_name := "Stop", session_id := "s1", permission_mode := "default" }

/-- Test fixture: a state with one remembered last-played file. -/
def stWithLast : PeonState := { last_played := [("complete", "Done.wav")] }

/-- Test fixture: a state where session s1 is already delegated. -/
def stWithAgent : PeonState := { agent_sessions := ["s1"] }

/-- Test fixture: an install without any pack manifest. -/
def noPacks : String → Option Manifest := fun _ => none

/-- Closed instance of the delegated-session theorem: a delegated event is
recorded and causes no other effect, and a later event for that session is
a pure no-op. -/
theorem c3_witness :
    strLower ("True" : String) ≠ "false" ∧
    (evStopDelegate.permission_mode ≠ "" ∧
        evStopDelegate.permission_mode ∈ agentModes →
      runHook {} false false false noPacks stWithLast evStopDelegate 0 0 0 =
        silentExit { stWithLast with
          agent_sessions := stWithLast.agent_sessions.insert "s1" } ∧
      (runHook {} false false false noPacks stWithLast evStopDelegate
          0 0 0).persisted.session_packs = stWithLast.session_packs ∧
      (runHook {} false false false noPacks stWithLast evStopDelegate
          0 0 0).persisted.prompt_timestamps = stWithLast.prompt_timestamps ∧
      (runHook {} false false false noPacks stWithLast evStopDelegate
          0 0 0).persisted.last_played = stWithLast.last_played ∧
      (runHook {} false false false noPacks stWithLast evStopDelegate
          0 0 0).category = "" ∧
      (runHook {} false false false noPacks stWithLast evStopDelegate
          0 0 0).soundFile = "" ∧
      (runHook {} false false false noPacks stWithLast evStopDelegate
          0 0 0).titleWritten = false ∧
      (runHook {} false false false noPacks stWithLast evStopDelegate
          0 0 0).notificationSent = false) ∧
    (("s1" : String) ∈ stWithAgent.agent_sessions →
      runHook {} false false false noPacks stWithAgent evStopNormal 0 0 0 =
        silentExit stWithAgent) :=
  ⟨by decide,
   (c3_delegated_frame {} false false false noPacks stWithLast evStopDelegate
     0 0 0 (by decide)).1,
   (c3_delegated_frame {} false false false noPacks stWithAgent evStopNormal
     0 0 0 (by decide)).2⟩

/-- C9: with the pause marker present, every notifying event (Stop,
Notification with the permission or idle subtype, PermissionRequest) still
requests a notification in routing but sends no popup and plays no sound,
while the terminal title is still written. -/
theorem c9_paused_suppression (cfg : Config) (focused pw : Bool)
    (packs : String → Option Manifest) (st : PeonState) (ev : Event)
    (now : Int) (rngPack rngSound : Nat)
    (hEn : strLower cfg.enabledStr ≠ "false")
    (hNd : ¬(ev.permission_mode ≠ "" ∧ ev.permission_mode ∈ agentModes))
    (hNa : ev.session_id ∉ st.agent_sessions)
    (hEv : ev.hook_event_name = "Stop" ∨
      (ev.hook_event_name = "Notification" ∧
        (ev.notification_type = "permission_prompt" ∨
          ev.notification_type = "idle_prompt")) ∨
      ev.hook_event_name = "PermissionRequest") :
    (runHook cfg true focused pw packs st ev now rngPack rngSound).notify = true ∧
    (runHook cfg true focused pw packs st ev now rngPack
        rngSound).notificationSent = false ∧
    (runHook cfg true focused pw packs st ev now rngPack rngSound).soundFile = "" ∧
    (runHook cfg true focused pw packs st ev now rngPack
        rngSound).titleWritten = true := by
  rcases hEv with h1 | ⟨h1, h2⟩ | h1
  · simp [runHook, hEn, hNd, hNa, route, h1, soundSelect_paused,
      String.append_assoc, strTruthyStripped_bullet]
  · rcases h2 with h2 | h2 <;>
      simp [runHook, hEn, hNd, hNa, route, h1, h2, soundSelect_paused,
        String.append_assoc, strTruthyStripped_bullet]
  · simp [runHook, hEn, hNd, hNa, route, h1, soundSelect_paused,
      String.append_assoc, strTruthyStripped_bullet]

/-- Closed instance of the pause-suppression theorem on a plain Stop event. -/
theorem c9_witness :
    strLower ("True" : String) ≠ "false" ∧
    (runHook {} true false false noPacks {} evStopNormal 0 0 0).notify = true ∧
    (runHook {} true false false noPacks {} evStopNormal 0 0 0).notificationSent
      = false ∧
    (runHook {} true false false noPacks {} evStopNormal 0 0 0).soundFile = "" ∧
    (runHook {} true false false noPacks {} evStopNormal 0 0 0).titleWritten = true :=
  ⟨by decide,
   c9_paused_suppression {} false false noPacks {} evStopNormal 0 0 0
     (by decide) (by decide) (by decide) (Or.inl (by decide))⟩

/-- Test fixture: rotation holding only pack Y. -/
def cfgRotY : Config := { pack_rotation := ["Y"] }

/-- Test fixture: session s1 was assigned pack X earlier. -/
def stPackX : PeonState := { session_packs := [("s1", "X")] }

/-- Test fixture: a SessionStart event for session s1. -/
def evSessionStart : Event :=
  { hook_event_name := "SessionStart", session_id := "s1", permission_mode := "default" }

/-- C1 as stated is false: when the pack assigned to a session is no longer
a member of pack_rotation, the invocation does not reuse it — it re-draws
from the current rotation and overwrites the stored assignment. Here
session s1 holds pack X but the rotation is now [Y]. -/
theorem c1_counterexample :
    (runHook cfgRotY false false false noPacks stPackX evSessionStart
        100 0 0).usedPack ≠ "X" ∧
    dget (runHook cfgRotY false false false noPacks stPackX evSessionStart
        100 0 0).persisted.session_packs "s1" = some "Y" := by
  decide

/-- C1 amended: a session that has been assigned a pack reuses it on every
later event for as long as that pack remains a member of pack_rotation (in
particular across changes of the rotation that keep it a member), and the
stored assignment table is not rewritten on such events. -/
theorem c1_amended (cfg : Config) (paused focused pw : Bool)
    (packs : String → Option Manifest) (st : PeonState) (ev : Event)
    (now : Int) (rngPack rngSound : Nat)
    (hEn : strLower cfg.enabledStr ≠ "false")
    (hNd : ¬(ev.permission_mode ≠ "" ∧ ev.permission_mode ∈ agentModes))
    (hNa : ev.session_id ∉ st.agent_sessions)
    (hRot : cfg.pack_rotation ≠ [])
    (p : String)
    (hGet : dget st.session_packs ev.session_id = some p)
    (hMem : p ∈ cfg.pack_rotation) :
    (runHook cfg paused focused pw packs st ev now rngPack rngSound).usedPack = p ∧
    (runHook cfg paused focused pw packs st ev now rngPack
        rngSound).persisted.session_packs = st.session_packs := by
  have hps : packSelect cfg st ev.session_id rngPack = (p, st, false) := by
    simp [packSelect, List.isEmpty_iff, hRot, hGet, hMem]
  cases hr : route cfg st ev now (extract_project_name ev.cwd) with
  | none =>
    constructor <;> simp [runHook, hEn, hNd, hNa, hps, hr, silentExit]
  | some r =>
    constructor
    · simp [runHook, hEn, hNd, hNa, hps, hr]
    · rcases hnp : r.newPromptTs with _ | ts <;>
        simp [runHook, hEn, hNd, hNa, hps, hr, hnp,
          apply_ite PeonState.session_packs, soundSelect_session_packs]

/-- Test fixture: rotation holding packs X and Y. -/
def cfgRotXY : Config := { pack_rotation := ["X", "Y"] }

/-- Closed instance of the amended pack-rotation theorem: with rotation
[X, Y] and session s1 pinned to X, the invocation reuses X and leaves the
assignment table untouched whatever the draw index. -/
theorem c1_witness :
    strLower cfgRotXY.enabledStr ≠ "false" ∧
    dget stPackX.session_packs evSessionStart.session_id = some "X" ∧
    "X" ∈ cfgRotXY.pack_rotation ∧
    (runHook cfgRotXY false false false noPacks stPackX evSessionStart
        100 7 3).usedPack = "X" ∧
    (runHook cfgRotXY false false false noPacks stPackX evSessionStart
        100 7 3).persisted.session_packs = stPackX.session_packs :=
  ⟨by decide, by decide, by decide,
   c1_amended cfgRotXY false false false noPacks stPackX evSessionStart 100 7 3
     (by decide) (by decide) (by decide) (by decide) "X" (by decide) (by decide)⟩

/-- C6 as stated is false on the exact message text: the source builds the
notification message with two spaces on each side of the em dash
(`project + "  —  Task complete"`), not the single-spaced
`"{project} — {label}"` the claim asserts. -/
theorem c6_counterexample :
    (runHook {} false false false noPacks {}
        { hook_event_name := "Stop", cwd := "/home/user/myproj", session_id := "s1",
          permission_mode := "default" } 0 0 0).msg ≠ "myproj — Task complete" ∧
    (runHook {} false false false noPacks {}
        { hook_event_name := "Stop", cwd := "/home/user/myproj", session_id := "s1",
          permission_mode := "default" } 0 0 0).msg = "myproj  —  Task complete" := by
  decide

/-- C6 amended: for every notifying event the message is
`{project}  —  {label}` (em dash with two spaces on each side) with label
Task complete, Permission needed or Waiting for input by event kind, where
project is the stripped last path segment of cwd and falls back to the
literal claude when cwd is empty or the stripped segment is empty. -/
theorem c6_message_format (cfg : Config) (paused focused pw : Bool)
    (packs : String → Option Manifest) (st : PeonState) (ev : Event)
    (now : Int) (rngPack rngSound : Nat)
    (hEn : strLower cfg.enabledStr ≠ "false")
    (hNd : ¬(ev.permission_mode ≠ "" ∧ ev.permission_mode ∈ agentModes))
    (hNa : ev.session_id ∉ st.agent_sessions) :
    (ev.hook_event_name = "Stop" →
      (runHook cfg paused focused pw packs st ev now rngPack rngSound).msg =
        extract_project_name ev.cwd ++ "  —  Task complete") ∧
    (ev.hook_event_name = "Notification" →
      ev.notification_type = "permission_prompt" →
      (runHook cfg paused focused pw packs st ev now rngPack rngSound).msg =
        extract_project_name ev.cwd ++ "  —  Permission needed") ∧
    (ev.hook_event_name = "Notification" →
      ev.notification_type = "idle_prompt" →
      (runHook cfg paused focused pw packs st ev now rngPack rngSound).msg =
        extract_project_name ev.cwd ++ "  —  Waiting for input") ∧
    (ev.hook_event_name = "PermissionRequest" →
      (runHook cfg paused focused pw packs st ev now rngPack rngSound).msg =
        extract_project_name ev.cwd ++ "  —  Permission needed") ∧
    (ev.cwd = "" → extract_project_name ev.cwd = "claude") ∧
    (stripName (basename ev.cwd) = "" → extract_project_name ev.cwd = "claude") := by
  refine ⟨?_, ?_, ?_, ?_, ?_, ?_⟩
  · intro h1
    simp [runHook, hEn, hNd, hNa, route, h1]
  · intro h1 h2
    simp [runHook, hEn, hNd, hNa, route, h1, h2]
  · intro h1 h2
    simp [runHook, hEn, hNd, hNa, route, h1, h2]
  · intro h1
    simp [runHook, hEn, hNd, hNa, route, h1]
  · intro h
    simp [extract_project_name, h]
  · intro h
    simp [extract_project_name, h]

/-- Closed instance of the amended message-format theorem on a Stop event. -/
theorem c6_witness :
    strLower ("True" : String) ≠ "false" ∧
    (evStopNormal.hook_event_name = "Stop" →
      (runHook {} false false false noPacks {} evStopNormal 0 0 0).msg =
        extract_project_name evStopNormal.cwd ++ "  —  Task complete") :=
  ⟨by decide,
   (c6_message_format {} false false false noPacks {} evStopNormal 0 0 0
     (by decide) (by decide) (by decide)).1⟩

/-- C7 as stated is false on state preservation: agent detection runs
before the event name is examined, so a parsed event with an unrecognized
hook_event_name that carries the delegated permission marker does mutate
the persisted state (the session id is added to agent_sessions). -/
theorem c7_counterexample :
    (runHook {} false false false noPacks {}
        { hook_event_name := "SomeOtherEvent", session_id := "s1",
          permission_mode := "delegate" } 0 0 0).persisted ≠ ({} : PeonState) ∧
    (runHook {} false false false noPacks {}
        { hook_event_name := "SomeOtherEvent", session_id := "s1",
          permission_mode := "delegate" } 0 0 0).persisted.agent_sessions = ["s1"] ∧
    (runHook {} false false false noPacks {}
        { hook_event_name := "SomeOtherEvent", session_id := "s1",
          permission_mode := "delegate" } 0 0 0).exitCode = 0 := by
  decide

/-- C7 amended: empty stdin, unparseable input, an unrecognized event name
and an unknown Notification subtype all exit 0 with no sound, notification
or title; the persisted state is unchanged unless agent detection fires
first (delegated permission marker with the kill-switch off), in which case
the only change is recording the session id in agent_sessions. -/
theorem c7_silent_exit (cfg : Config) (paused focused pw : Bool)
    (packs : String → Option Manifest) (st : PeonState) (inp : HookInput)
    (now : Int) (rngPack rngSound : Nat)
    (hUnk : ∀ ev, inp = HookInput.event ev →
      ev.hook_event_name ∉ (["SessionStart", "UserPromptSubmit", "Stop",
        "Notification", "PermissionRequest"] : List String) ∨
      (ev.hook_event_name = "Notification" ∧
        ev.notification_type ≠ "permission_prompt" ∧
        ev.notification_type ≠ "idle_prompt")) :
    (runHookRaw cfg paused focused pw packs st inp now rngPack rngSound).exitCode = 0 ∧
    (runHookRaw cfg paused focused pw packs st inp now rngPack rngSound).category = "" ∧
    (runHookRaw cfg paused focused pw packs st inp now rngPack rngSound).soundFile = "" ∧
    (runHookRaw cfg paused focused pw packs st inp now rngPack
        rngSound).titleWritten = false ∧
    (runHookRaw cfg paused focused pw packs st inp now rngPack
        rngSound).notificationSent = false ∧
    (runHookRaw cfg paused focused pw packs st inp now rngPack
        rngSound).persisted.session_packs = st.session_packs ∧
    (runHookRaw cfg paused focused pw packs st inp now rngPack
        rngSound).persisted.prompt_timestamps = st.prompt_timestamps ∧
    (runHookRaw cfg paused focused pw packs st inp now rngPack
        rngSound).persisted.last_played = st.last_played ∧
    (∀ ev, inp = HookInput.event ev →
      ((ev.permission_mode ≠ "" ∧ ev.permission_mode ∈ agentModes ∧
          strLower cfg.enabledStr ≠ "false") →
        (runHookRaw cfg paused focused pw packs st inp now rngPack
            rngSound).persisted.agent_sessions =
          st.agent_sessions.insert ev.session_id) ∧
      ((¬(ev.permission_mode ≠ "" ∧ ev.permission_mode ∈ agentModes) ∨
          strLower cfg.enabledStr = "false") →
        (runHookRaw cfg paused focused pw packs st inp now rngPack
            rngSound).persisted = st)) := by
  cases inp with
  | empty =>
    refine ⟨rfl, rfl, rfl, rfl, rfl, rfl, rfl, rfl, ?_⟩
    intro ev hev
    exact HookInput.noConfusion hev
  | malformed =>
    refine ⟨rfl, rfl, rfl, rfl, rfl, rfl, rfl, rfl, ?_⟩
    intro ev hev
    exact HookInput.noConfusion hev
  | event ev =>
    have hU := hUnk ev rfl
    have hroute : ∀ (st' : PeonState) (project : String),
        route cfg st' ev now project = none := by
      intro st' project
      rcases hU with hn | ⟨hn, hs1, hs2⟩
      · have hn' : ev.hook_event_name ≠ "SessionStart" ∧
            ev.hook_event_name ≠ "UserPromptSubmit" ∧
            ev.hook_event_name ≠ "Stop" ∧
            ev.hook_event_name ≠ "Notification" ∧
            ev.hook_event_name ≠ "PermissionRequest" := by
          simpa using hn
        obtain ⟨h1, h2, h3, h4, h5⟩ := hn'
        simp [route, h1, h2, h3, h4, h5]
      · simp [route, hn, hs1, hs2]
    by_cases hEn : strLower cfg.enabledStr = "false"
    · have hR : runHookRaw cfg paused focused pw packs st (HookInput.event ev)
          now rngPack rngSound = silentExit st := by
        simp [runHookRaw, runHook, hEn]
      rw [hR]
      refine ⟨rfl, rfl, rfl, rfl, rfl, rfl, rfl, rfl, ?_⟩
      intro ev' hev
      injection hev with hev'
      subst hev'
      exact ⟨fun h => absurd hEn h.2.2, fun _ => rfl⟩
    · by_cases hNd : ev.permission_mode ≠ "" ∧ ev.permission_mode ∈ agentModes
      · have hR : runHookRaw cfg paused focused pw packs st (HookInput.event ev)
            now rngPack rngSound =
            silentExit { st with
              agent_sessions := st.agent_sessions.insert ev.session_id } := by
          simp [runHookRaw, runHook, hEn, hNd]
        rw [hR]
        refine ⟨rfl, rfl, rfl, rfl, rfl, rfl, rfl, rfl, ?_⟩
        intro ev' hev
        injection hev with hev'
        subst hev'
        refine ⟨fun _ => rfl, fun h => ?_⟩
        rcases h with h | h
        · exact absurd hNd h
        · exact absurd h hEn
      · by_cases hNa : ev.session_id ∈ st.agent_sessions
        · have hR : runHookRaw cfg paused focused pw packs st (HookInput.event ev)
              now rngPack rngSound = silentExit st := by
            simp [runHookRaw, runHook, hEn, hNd, hNa]
          rw [hR]
          refine ⟨rfl, rfl, rfl, rfl, rfl, rfl, rfl, rfl, ?_⟩
          intro ev' hev
          injection hev with hev'
          subst hev'
          exact ⟨fun h => absurd ⟨h.1, h.2.1⟩ hNd, fun _ => rfl⟩
        · have hR : runHookRaw cfg paused focused pw packs st (HookInput.event ev)
              now rngPack rngSound =
              { silentExit st with
                usedPack := (packSelect cfg st ev.session_id rngPack).1 } := by
            simp [runHookRaw, runHook, hEn, hNd, hNa, hroute]
          rw [hR]
          refine ⟨rfl, rfl, rfl, rfl, rfl, rfl, rfl, rfl, ?_⟩
          intro ev' hev
          injection hev with hev'
          subst hev'
          exact ⟨fun h => absurd ⟨h.1, h.2.1⟩ hNd, fun _ => rfl⟩

/-- Test fixture: an unrecognized event name without the delegated marker. -/
def evUnknown : Event :=
  { hook_event_name := "SomeOtherEvent", session_id := "s1", permission_mode := "default" }

/-- Closed instance of the silent-exit theorem on an unrecognized event
name without the delegated marker: a complete no-op. -/
theorem c7_witness :
    (∀ ev, HookInput.event evUnknown = HookInput.event ev →
      ev.hook_event_name ∉ (["SessionStart", "UserPromptSubmit", "Stop",
        "Notification", "PermissionRequest"] : List String) ∨
      (ev.hook_event_name = "Notification" ∧
        ev.notification_type ≠ "permission_prompt" ∧
        ev.notification_type ≠ "idle_prompt")) ∧
    (runHookRaw {} false false false noPacks stWithLast
        (HookInput.event evUnknown) 0 0 0).exitCode = 0 ∧
    (runHookRaw {} false false false noPacks stWithLast
        (HookInput.event evUnknown) 0 0 0).category = "" ∧
    (runHookRaw {} false false false noPacks stWithLast
        (HookInput.event evUnknown) 0 0 0).persisted.last_played =
      stWithLast.last_played :=
  have hu : ∀ ev, HookInput.event evUnknown = HookInput.event ev →
      ev.hook_event_name ∉ (["SessionStart", "UserPromptSubmit", "Stop",
        "Notification", "PermissionRequest"] : List String) ∨
      (ev.hook_event_name = "Notification" ∧
        ev.notification_type ≠ "permission_prompt" ∧
        ev.notification_type ≠ "idle_prompt") := by
    intro ev hev
    injection hev with hev'
    subst hev'
    exact Or.inl (by decide)
  ⟨hu,
   (c7_silent_exit {} false false false noPacks stWithLast
     (HookInput.event evUnknown) 0 0 0 hu).1,
   (c7_silent_exit {} false false false noPacks stWithLast
     (HookInput.event evUnknown) 0 0 0 hu).2.1,
   (c7_silent_exit {} false false false noPacks stWithLast
     (HookInput.event evUnknown) 0 0 0 hu).2.2.2.2.2.2.2.1⟩

/-- One UserPromptSubmit invocation with the annoyed category enabled:
the category is annoyed exactly when the pruned timestamp list plus the
new entry reaches the threshold, the pruned-plus-appended list is stored
for the session, and agent_sessions is untouched. -/
theorem runHook_prompt_step (cfg : Config) (paused focused pw : Bool)
    (packs : String → Option Manifest) (st : PeonState) (ev : Event)
    (now : Int) (rngPack rngSound : Nat)
    (hEn : strLower cfg.enabledStr ≠ "false")
    (hNd : ¬(ev.permission_mode ≠ "" ∧ ev.permission_mode ∈ agentModes))
    (hNa : ev.session_id ∉ st.agent_sessions)
    (hname : ev.hook_event_name = "UserPromptSubmit")
    (hAnn : cfg.catEnabled "annoyed" = true) :
    (runHook cfg paused focused pw packs st ev now rngPack rngSound).category =
      (if cfg.annoyed_threshold ≤
          (((dget st.prompt_timestamps ev.session_id).getD []).filter
            (fun t => now - t < cfg.annoyed_window)).length + 1
        then "annoyed" else "") ∧
    dget (runHook cfg paused focused pw packs st ev now rngPack
        rngSound).persisted.prompt_timestamps ev.session_id =
      some (((dget st.prompt_timestamps ev.session_id).getD []).filter
        (fun t => now - t < cfg.annoyed_window) ++ [now]) ∧
    (runHook cfg paused focused pw packs st ev now rngPack
        rngSound).persisted.agent_sessions = st.agent_sessions := by
  refine ⟨?_, ?_, ?_⟩
  · by_cases hc : cfg.annoyed_threshold ≤
        (((dget st.prompt_timestamps ev.session_id).getD []).filter
          (fun t => now - t < cfg.annoyed_window)).length + 1 <;>
      simp [runHook, hEn, hNd, hNa, route, hname, hAnn,
        packSelect_prompt_timestamps, hc, hAnn]
  · simp [runHook, hEn, hNd, hNa, route, hname, hAnn,
      packSelect_prompt_timestamps, soundSelect_prompt_timestamps, dget_dset_self]
  · simp [runHook, hEn, hNd, hNa, route, hname, hAnn,
      packSelect_prompt_timestamps, packSelect_agent_sessions,
      soundSelect_agent_sessions]

/-- C2: with threshold 3 and the annoyed category enabled, three
UserPromptSubmit invocations inside the window for a fresh session leave
the category empty on the first two and set it to annoyed on the third;
the stored timestamp list is not reset by triggering, so a fourth prompt
whose window still covers at least three entries is annoyed again. -/
theorem c2_annoyed_threshold (cfg : Config) (paused focused pw : Bool)
    (packs : String → Option Manifest) (st : PeonState) (sid : String)
    (t0 t1 t2 t3 : Int) (rp1 rs1 rp2 rs2 rp3 rs3 rp4 rs4 : Nat)
    (ev : Event) (R1 R2 R3 R4 : HookResult)
    (hev : ev = { hook_event_name := "UserPromptSubmit", session_id := sid })
    (hR1 : R1 = runHook cfg paused focused pw packs st ev t0 rp1 rs1)
    (hR2 : R2 = runHook cfg paused focused pw packs R1.persisted ev t1 rp2 rs2)
    (hR3 : R3 = runHook cfg paused focused pw packs R2.persisted ev t2 rp3 rs3)
    (hR4 : R4 = runHook cfg paused focused pw packs R3.persisted ev t3 rp4 rs4)
    (hEn : strLower cfg.enabledStr ≠ "false")
    (hThr : cfg.annoyed_threshold = 3)
    (hAnn : cfg.catEnabled "annoyed" = true)
    (hNa : sid ∉ st.agent_sessions)
    (hTs : (dget st.prompt_timestamps sid).getD [] = [])
    (h01 : t0 ≤ t1) (h12 : t1 ≤ t2) (h23 : t2 ≤ t3)
    (hw : t2 - t0 < cfg.annoyed_window)
    (hw3 : t3 - t1 < cfg.annoyed_window) :
    R1.category = "" ∧ R2.category = "" ∧ R3.category = "annoyed" ∧
    dget R3.persisted.prompt_timestamps sid = some [t0, t1, t2] ∧
    R4.category = "annoyed" := by
  have hNd : ¬(ev.permission_mode ≠ "" ∧ ev.permission_mode ∈ agentModes) := by
    subst hev; simp
  have hsid : ev.session_id = sid := by subst hev; rfl
  have hname : ev.hook_event_name = "UserPromptSubmit" := by subst hev; rfl
  -- step 1
  have s1 := runHook_prompt_step cfg paused focused pw packs st ev t0 rp1 rs1
    hEn hNd (hsid ▸ hNa) hname hAnn
  rw [hsid, hTs] at s1
  obtain ⟨s1c, s1t, s1a⟩ := s1
  have hc1 : R1.category = "" := by
    rw [hR1, s1c, hThr]
    simp
  have ht1 : dget R1.persisted.prompt_timestamps sid = some [t0] := by
    rw [hR1]
    simpa using s1t
  have ha1 : R1.persisted.agent_sessions = st.agent_sessions := by rw [hR1]; exact s1a
  -- step 2
  have s2 := runHook_prompt_step cfg paused focused pw packs R1.persisted ev t1 rp2 rs2
    hEn hNd (by rw [hsid, ha1]; exact hNa) hname hAnn
  rw [hsid, ht1] at s2
  obtain ⟨s2c, s2t, s2a⟩ := s2
  have hf10 : t1 - t0 < cfg.annoyed_window := by omega
  have hc2 : R2.category = "" := by
    rw [hR2, s2c, hThr]
    simp [hf10]
  have ht2 : dget R2.persisted.prompt_timestamps sid = some [t0, t1] := by
    rw [hR2]
    simpa [hf10] using s2t
  have ha2 : R2.persisted.agent_sessions = st.agent_sessions := by
    rw [hR2, s2a, ha1]
  -- step 3
  have s3 := runHook_prompt_step cfg paused focused pw packs R2.persisted ev t2 rp3 rs3
    hEn hNd (by rw [hsid, ha2]; exact hNa) hname hAnn
  rw [hsid, ht2] at s3
  obtain ⟨s3c, s3t, s3a⟩ := s3
  have hf21 : t2 - t1 < cfg.annoyed_window := by omega
  have hc3 : R3.category = "annoyed" := by
    rw [hR3, s3c, hThr]
    simp [hw, hf21]
  have ht3 : dget R3.persisted.prompt_timestamps sid = some [t0, t1, t2] := by
    rw [hR3]
    simpa [hw, hf21] using s3t
  have ha3 : R3.persisted.agent_sessions = st.agent_sessions := by
    rw [hR3, s3a, ha2]
  -- step 4
  have s4 := runHook_prompt_step cfg paused focused pw packs R3.persisted ev t3 rp4 rs4
    hEn hNd (by rw [hsid, ha3]; exact hNa) hname hAnn
  rw [hsid, ht3] at s4
  obtain ⟨s4c, _, _⟩ := s4
  have hf31 : t3 - t1 < cfg.annoyed_window := hw3
  have hf32 : t3 - t2 < cfg.annoyed_window := by omega
  have hc4 : R4.category = "annoyed" := by
    rw [hR4, s4c, hThr]
    by_cases h30 : t3 - t0 < cfg.annoyed_window <;>
      simp [h30, hf31, hf32]
  exact ⟨hc1, hc2, hc3, ht3, hc4⟩

/-- Test fixture: a UserPromptSubmit event for session s1. -/
def evPrompt : Event := { hook_event_name := "UserPromptSubmit", session_id := "s1" }

/-- Test fixture: result of the first of four rapid prompts. -/
def c2R1 : HookResult := runHook {} false false false noPacks {} evPrompt 0 0 0

/-- Test fixture: result of the second rapid prompt. -/
def c2R2 : HookResult := runHook {} false false false noPacks c2R1.persisted evPrompt 1 0 0

/-- Test fixture: result of the third rapid prompt. -/
def c2R3 : HookResult := runHook {} false false false noPacks c2R2.persisted evPrompt 2 0 0

/-- Test fixture: result of the fourth rapid prompt. -/
def c2R4 : HookResult := runHook {} false false false noPacks c2R3.persisted evPrompt 3 0 0

/-- Closed instance of the annoyed-threshold theorem: four prompts at
times 0, 1, 2, 3 inside the default 10-second window. -/
theorem c2_witness :
    (({} : Config).annoyed_threshold = 3 ∧
      ({} : Config).catEnabled "annoyed" = true ∧
      ((2 : Int) - 0 < ({} : Config).annoyed_window)) ∧
    (c2R1.category = "" ∧ c2R2.category = "" ∧ c2R3.category = "annoyed" ∧
      dget c2R3.persisted.prompt_timestamps "s1" = some [0, 1, 2] ∧
      c2R4.category = "annoyed") :=
  ⟨⟨rfl, rfl, by decide⟩,
   c2_annoyed_threshold {} false false false noPacks {} "s1" 0 1 2 3
     0 0 0 0 0 0 0 0 evPrompt c2R1 c2R2 c2R3 c2R4
     rfl rfl rfl rfl rfl (by decide) rfl rfl (by decide) (by decide)
     (by decide) (by decide) (by decide) (by decide) (by decide)⟩

/-- C5: if an event resolves to a non-empty category and that category is
then disabled in the configuration, the same event yields an empty
category, no sound and an untouched last_played table, while status,
marker, title, notification request, color and message are exactly what
the enabled configuration produces. -/
theorem c5_disabled_category (cfg cfg' : Config) (c : String) (paused focused pw : Bool)
    (packs : String → Option Manifest) (st : PeonState) (ev : Event)
    (now : Int) (rngPack rngSound : Nat)
    (hcfg' : cfg' = { cfg with
      catEnabled := fun x => if x = c then false else cfg.catEnabled x })
    (hc : (runHook cfg paused focused pw packs st ev now rngPack rngSound).category = c)
    (hne : c ≠ "") :
    (runHook cfg' paused focused pw packs st ev now rngPack rngSound).category = "" ∧
    (runHook cfg' paused focused pw packs st ev now rngPack rngSound).soundFile = "" ∧
    (runHook cfg' paused focused pw packs st ev now rngPack
        rngSound).persisted.last_played = st.last_played ∧
    (runHook cfg' paused focused pw packs st ev now rngPack rngSound).status =
      (runHook cfg paused focused pw packs st ev now rngPack rngSound).status ∧
    (runHook cfg' paused focused pw packs st ev now rngPack rngSound).marker =
      (runHook cfg paused focused pw packs st ev now rngPack rngSound).marker ∧
    (runHook cfg' paused focused pw packs st ev now rngPack rngSound).title =
      (runHook cfg paused focused pw packs st ev now rngPack rngSound).title ∧
    (runHook cfg' paused focused pw packs st ev now rngPack rngSound).titleWritten =
      (runHook cfg paused focused pw packs st ev now rngPack rngSound).titleWritten ∧
    (runHook cfg' paused focused pw packs st ev now rngPack rngSound).notify =
      (runHook cfg paused focused pw packs st ev now rngPack rngSound).notify ∧
    (runHook cfg' paused focused pw packs st ev now rngPack rngSound).notifyColor =
      (runHook cfg paused focused pw packs st ev now rngPack rngSound).notifyColor ∧
    (runHook cfg' paused focused pw packs st ev now rngPack rngSound).msg =
      (runHook cfg paused focused pw packs st ev now rngPack rngSound).msg ∧
    (runHook cfg' paused focused pw packs st ev now rngPack
        rngSound).notificationSent =
      (runHook cfg paused focused pw packs st ev now rngPack
        rngSound).notificationSent := by
  by_cases hEn : strLower cfg.enabledStr = "false"
  · exfalso
    apply hne
    rw [← hc]
    simp [runHook, hEn, silentExit]
  by_cases hNd : ev.permission_mode ≠ "" ∧ ev.permission_mode ∈ agentModes
  · exfalso
    apply hne
    rw [← hc]
    simp [runHook, hEn, hNd, silentExit]
  by_cases hNa : ev.session_id ∈ st.agent_sessions
  · exfalso
    apply hne
    rw [← hc]
    simp [runHook, hEn, hNd, hNa, silentExit]
  subst hcfg'
  by_cases h1 : ev.hook_event_name = "SessionStart"
  · have hg : cfg.catEnabled "greeting" = true := by
      by_cases hg : cfg.catEnabled "greeting" = true
      · exact hg
      · exfalso
        apply hne
        rw [← hc]
        have hg' : cfg.catEnabled "greeting" = false := by simpa using hg
        simp [runHook, hEn, hNd, hNa, route, h1, hg']
    have hcg : c = "greeting" := by
      rw [← hc]
      simp [runHook, hEn, hNd, hNa, route, h1, hg]
    subst hcg
    refine ⟨?_, ?_, ?_, ?_, ?_, ?_, ?_, ?_, ?_, ?_, ?_⟩ <;>
      simp [runHook, hEn, hNd, hNa, route, h1, hg, soundSelect_empty_cat,
        packSelect_last_played, apply_ite PeonState.last_played]
  by_cases h2 : ev.hook_event_name = "UserPromptSubmit"
  · have hann : cfg.catEnabled "annoyed" = true := by
      by_cases hA : cfg.catEnabled "annoyed" = true
      · exact hA
      · exfalso
        apply hne
        rw [← hc]
        have hA' : cfg.catEnabled "annoyed" = false := by simpa using hA
        simp [runHook, hEn, hNd, hNa, route, h1, h2, hA']
    have hcv : c = "annoyed" := by
      by_cases hlen : cfg.annoyed_threshold ≤
          (((dget st.prompt_timestamps ev.session_id).getD []).filter
            (fun t => now - t < cfg.annoyed_window)).length + 1
      · rw [← hc]
        simp [runHook, hEn, hNd, hNa, route, h1, h2, hann,
          packSelect_prompt_timestamps, hlen]
      · exfalso
        apply hne
        rw [← hc]
        simp [runHook, hEn, hNd, hNa, route, h1, h2, hann,
          packSelect_prompt_timestamps, hlen]
    subst hcv
    refine ⟨?_, ?_, ?_, ?_, ?_, ?_, ?_, ?_, ?_, ?_, ?_⟩ <;>
      simp [runHook, hEn, hNd, hNa, route, h1, h2, hann, soundSelect_empty_cat,
        packSelect_last_played, packSelect_prompt_timestamps,
        apply_ite PeonState.last_played]
  by_cases h3 : ev.hook_event_name = "Stop"
  · have hg : cfg.catEnabled "complete" = true := by
      by_cases hg : cfg.catEnabled "complete" = true
      · exact hg
      · exfalso
        apply hne
        rw [← hc]
        have hg' : cfg.catEnabled "complete" = false := by simpa using hg
        simp [runHook, hEn, hNd, hNa, route, h1, h2, h3, hg']
    have hcg : c = "complete" := by
      rw [← hc]
      simp [runHook, hEn, hNd, hNa, route, h1, h2, h3, hg]
    subst hcg
    refine ⟨?_, ?_, ?_, ?_, ?_, ?_, ?_, ?_, ?_, ?_, ?_⟩ <;>
      simp [runHook, hEn, hNd, hNa, route, h1, h2, h3, hg, soundSelect_empty_cat,
        packSelect_last_played, apply_ite PeonState.last_played]
  by_cases h4 : ev.hook_event_name = "Notification"
  · by_cases hsub1 : ev.notification_type = "permission_prompt"
    · have hg : cfg.catEnabled "permission" = true := by
        by_cases hg : cfg.catEnabled "permission" = true
        · exact hg
        · exfalso
          apply hne
          rw [← hc]
          have hg' : cfg.catEnabled "permission" = false := by simpa using hg
          simp [runHook, hEn, hNd, hNa, route, h1, h2, h3, h4, hsub1, hg']
      have hcg : c = "permission" := by
        rw [← hc]
        simp [runHook, hEn, hNd, hNa, route, h1, h2, h3, h4, hsub1, hg]
      subst hcg
      refine ⟨?_, ?_, ?_, ?_, ?_, ?_, ?_, ?_, ?_, ?_, ?_⟩ <;>
        simp [runHook, hEn, hNd, hNa, route, h1, h2, h3, h4, hsub1, hg,
          soundSelect_empty_cat, packSelect_last_played,
          apply_ite PeonState.last_played]
    · by_cases hsub2 : ev.notification_type = "idle_prompt"
      · exfalso
        apply hne
        rw [← hc]
        simp [runHook, hEn, hNd, hNa, route, h1, h2, h3, h4, hsub1, hsub2]
      · exfalso
        apply hne
        rw [← hc]
        simp [runHook, hEn, hNd, hNa, route, h1, h2, h3, h4, hsub1, hsub2, silentExit]
  by_cases h5 : ev.hook_event_name = "PermissionRequest"
  · have hg : cfg.catEnabled "permission" = true := by
      by_cases hg : cfg.catEnabled "permission" = true
      · exact hg
      · exfalso
        apply hne
        rw [← hc]
        have hg' : cfg.catEnabled "permission" = false := by simpa using hg
        simp [runHook, hEn, hNd, hNa, route, h1, h2, h3, h4, h5, hg']
    have hcg : c = "permission" := by
      rw [← hc]
      simp [runHook, hEn, hNd, hNa, route, h1, h2, h3, h4, h5, hg]
    subst hcg
    refine ⟨?_, ?_, ?_, ?_, ?_, ?_, ?_, ?_, ?_, ?_, ?_⟩ <;>
      simp [runHook, hEn, hNd, hNa, route, h1, h2, h3, h4, h5, hg,
        soundSelect_empty_cat, packSelect_last_played,
        apply_ite PeonState.last_played]
  · exfalso
    apply hne
    rw [← hc]
    simp [runHook, hEn, hNd, hNa, route, h1, h2, h3, h4, h5, silentExit]

/-- Test fixture: the default configuration with the complete category
disabled. -/
def cfgNoComplete : Config :=
  { ({} : Config) with
    catEnabled := fun x => if x = "complete" then false else ({} : Config).catEnabled x }

/-- Closed instance of the disabled-category theorem: a Stop event with
the complete category disabled loses its category and sound but keeps the
message, title and notification request of the enabled run. -/
theorem c5_witness :
    (runHook {} false false false noPacks {} evStopNormal 0 0 0).category =
      "complete" ∧
    (runHook cfgNoComplete false false false noPacks {} evStopNormal
        0 0 0).category = "" ∧
    (runHook cfgNoComplete false false false noPacks {} evStopNormal 0 0 0).msg =
      (runHook {} false false false noPacks {} evStopNormal 0 0 0).msg ∧
    (runHook cfgNoComplete false false false noPacks {} evStopNormal
        0 0 0).titleWritten =
      (runHook {} false false false noPacks {} evStopNormal 0 0 0).titleWritten :=
  ⟨by decide,
   (c5_disabled_category {} cfgNoComplete "complete" false false false noPacks {}
     evStopNormal 0 0 0 rfl (by decide) (by decide)).1,
   (c5_disabled_category {} cfgNoComplete "complete" false false false noPacks {}
     evStopNormal 0 0 0 rfl (by decide) (by decide)).2.2.2.2.2.2.2.2.2.1,
   (c5_disabled_category {} cfgNoComplete "complete" false false false noPacks {}
     evStopNormal 0 0 0 rfl (by decide) (by decide)).2.2.2.2.2.2.1⟩

end PeonPing
